import Mathlib

/-!
Verification development for the Roof Maxx market-analytics toolkit
(`market_analysis.py` and `streamlit_dashboard.py`), shallowly embedded in
Lean 4.  Numeric values are modelled exactly over `ℚ`; Python run-time
failures (ZeroDivisionError, UnboundLocalError) are modelled with `Except`.
-/

namespace RoofMaxx

/-- Python run-time failures relevant to this code base.  `unboundLocalError`
models referencing a local variable (here, a dataframe name) before
assignment; `zeroDivisionError` models division by zero; `invalidInput`
models an explicit input-validation signal (which the spec asks for but the
source never raises). -/
inductive PyError where
  | unboundLocalError : String → PyError
  | zeroDivisionError : PyError
  | invalidInput : String → PyError
deriving DecidableEq, Repr

/-- Whether an error value is the explicit input-validation signal. -/
def PyError.isInvalidInput : PyError → Bool
  | .invalidInput _ => true
  | _ => false

/-! ## Section 1: MarketResearchCollector -/

/-- Raw (pre-derivation) demographic columns of one region row, as literally
tabulated in `collect_demographic_data`. -/
structure BaseRow where
  name : String
  population : ℚ
  median_income : ℚ
  median_home_value : ℚ
  homeownership_rate : ℚ
  housing_units : ℚ
deriving DecidableEq, Repr

/-- One row of the collected demographic dataframe, with the derived
addressable-market columns. -/
structure RegionRow extends BaseRow where
  est_asphalt_roofs : ℚ
  est_qualified_roofs : ℚ
  market_potential_annual : ℚ
deriving DecidableEq, Repr

/-- The Washington-county literal table of `collect_demographic_data`. -/
def waData : List BaseRow :=
  [⟨"King", 2269675, 106326, 686400, 61/100, 953923⟩,
   ⟨"Pierce", 921130, 78936, 451200, 65/100, 363418⟩,
   ⟨"Snohomish", 827957, 95184, 589700, 68/100, 327152⟩,
   ⟨"Spokane", 522798, 62371, 298100, 62/100, 218234⟩,
   ⟨"Clark", 503311, 82614, 445900, 66/100, 199876⟩,
   ⟨"Thurston", 291681, 79683, 398600, 64/100, 123456⟩,
   ⟨"Kitsap", 271473, 81934, 459800, 66/100, 112345⟩,
   ⟨"Yakima", 256728, 61709, 264100, 58/100, 95432⟩,
   ⟨"Whatcom", 229247, 72977, 475300, 63/100, 98765⟩,
   ⟨"Benton", 206873, 84867, 338700, 68/100, 87654⟩]

/-- The Canadian-province literal table of `collect_demographic_data`
(income and home value are the `_cad` columns). -/
def caData : List BaseRow :=
  [⟨"Ontario", 14826276, 87353, 769800, 69/100, 5929000⟩,
   ⟨"British Columbia", 5214805, 82851, 876600, 68/100, 2100000⟩,
   ⟨"Alberta", 4543111, 97940, 476300, 72/100, 1760000⟩,
   ⟨"Quebec", 8604495, 79105, 453200, 61/100, 3700000⟩,
   ⟨"Manitoba", 1383765, 77750, 347800, 70/100, 580000⟩,
   ⟨"Saskatchewan", 1194803, 80679, 312500, 71/100, 485000⟩]

/-- Washington derived columns: `est_asphalt_roofs = housing_units *
homeownership_rate * 0.70`, `est_qualified_roofs = est_asphalt_roofs * 0.90`,
`market_potential_annual = est_qualified_roofs * 0.07`. -/
def waDerive (r : BaseRow) : RegionRow :=
  let asphalt := r.housing_units * r.homeownership_rate * (70/100)
  let qualified := asphalt * (90/100)
  ⟨r, asphalt, qualified, qualified * (7/100)⟩

/-- Canada derived columns: constants 0.72, 0.85, 0.065. -/
def caDerive (r : BaseRow) : RegionRow :=
  let asphalt := r.housing_units * r.homeownership_rate * (72/100)
  let qualified := asphalt * (85/100)
  ⟨r, asphalt, qualified, qualified * (65/1000)⟩

/-- `MarketResearchCollector.collect_demographic_data`.  For any region other
than `washington`/`canada`, no branch assigns the local `df`, so the final
`return df` raises `UnboundLocalError` — a raw internal fault. -/
def collect_demographic_data (region : String) : Except PyError (List RegionRow) :=
  if region = "washington" then .ok (waData.map waDerive)
  else if region = "canada" then .ok (caData.map caDerive)
  else .error (.unboundLocalError "df")

/-- One row of the housing-age dataframe built by `collect_housing_age_data`. -/
structure AgeBracket where
  age_range : String
  percentage : ℚ
  avg_roof_age : ℚ
  in_treatment_window : Bool
deriving DecidableEq, Repr

/-- The seven age-range labels shared by both regional tables. -/
def ageRanges : List String :=
  ["0-5 years", "6-10 years", "11-15 years", "16-20 years",
   "21-30 years", "31-50 years", "51+ years"]

/-- `df['in_treatment_window'] = df['age_range'].isin(['6-10 years', '11-15 years'])`. -/
def inTreatmentWindow (range : String) : Bool :=
  range ∈ ["6-10 years", "11-15 years"]

/-- Assemble the housing-age dataframe from its three literal columns. -/
def mkAgeTable (percentage avg_roof_age : List ℚ) : List AgeBracket :=
  (ageRanges.zip (percentage.zip avg_roof_age)).map
    (fun t => ⟨t.1, t.2.1, t.2.2, inTreatmentWindow t.1⟩)

/-- `MarketResearchCollector.collect_housing_age_data`: the `if` tests only
`region == 'washington'`; its `else` branch (commented `# canada`) serves
every other region string. -/
def collect_housing_age_data (region : String) : List AgeBracket :=
  if region = "washington" then
    mkAgeTable [8, 12, 15, 18, 25, 18, 4] [3, 8, 13, 18, 25, 20, 25]
  else
    mkAgeTable [7, 11, 14, 17, 27, 19, 5] [3, 8, 13, 18, 26, 22, 27]

/-! ## Section 2: RoofMaxxPredictiveModel -/

/-- A dataframe as an ordered association of column name to numeric column. -/
abbrev Df : Type := List (String × List ℚ)

/-- `col in df.columns`. -/
def hasCol (df : Df) (c : String) : Bool :=
  df.any (fun p => p.1 = c)

/-- Look up a column by name (first occurrence). -/
def getCol (df : Df) (c : String) : Option (List ℚ) :=
  (df.find? (fun p => p.1 = c)).map (fun p => p.2)

/-- When both source columns are present, append their elementwise quotient
as a new column; otherwise leave the dataframe unchanged. -/
def addRatioCol (df : Df) (a b newCol : String) : Df :=
  if hasCol df a ∧ hasCol df b then
    match getCol df a, getCol df b with
    | some xs, some ys => df ++ [(newCol, List.zipWith (fun x y => x / y) xs ys)]
    | _, _ => df
  else df

/-- `RoofMaxxPredictiveModel.prepare_features`: adds `income_home_ratio`
when `median_income` and `median_home_value` are both present, then
`population_density` when `population` and `housing_units` are both
present. -/
def prepare_features (df : Df) : Df :=
  addRatioCol
    (addRatioCol df "median_income" "median_home_value" "income_home_ratio")
    "population" "housing_units" "population_density"

/-- The deterministic lead formula of `forecast_lead_generation`:
`digital_spend / 1000 * 15 * seo_multiplier * content_multiplier *
review_multiplier`. -/
def monthlyLeads (digital_spend seo_score content_pieces review_count : ℚ) : ℚ :=
  digital_spend / 1000 * 15 *
    (1 + seo_score / 100 * 2) *
    (1 + content_pieces / 50 * (15/10)) *
    (1 + review_count / 100 * (5/10))

/-- `projected_sales = hot*0.60 + warm*0.25 + cold*0.05` with the
25/45/30 lead split. -/
def projectedSales (digital_spend seo_score content_pieces review_count : ℚ) : ℚ :=
  let leads := monthlyLeads digital_spend seo_score content_pieces review_count
  leads * (25/100) * (60/100) + leads * (45/100) * (25/100) +
    leads * (30/100) * (5/100)

/-- The successful return value of `forecast_lead_generation`. -/
structure LeadForecast where
  total_leads : ℚ
  hot_leads : ℚ
  warm_leads : ℚ
  cold_leads : ℚ
  projected_monthly_sales : ℚ
  projected_monthly_revenue : ℚ
  cost_per_lead : ℚ
  cost_per_acquisition : ℚ
  roi : ℚ
deriving DecidableEq, Repr

/-- `RoofMaxxPredictiveModel.forecast_lead_generation`.  The three Python
divisions are evaluated in source order (`cost_per_lead`,
`cost_per_acquisition`, `roi`); the first zero denominator raises
`ZeroDivisionError`. -/
def forecast_lead_generation (digital_spend seo_score content_pieces review_count : ℚ) :
    Except PyError LeadForecast :=
  let leads := monthlyLeads digital_spend seo_score content_pieces review_count
  let sales := projectedSales digital_spend seo_score content_pieces review_count
  if leads = 0 then .error .zeroDivisionError
  else if sales = 0 then .error .zeroDivisionError
  else if digital_spend = 0 then .error .zeroDivisionError
  else .ok
    { total_leads := leads
      hot_leads := leads * (25/100)
      warm_leads := leads * (45/100)
      cold_leads := leads * (30/100)
      projected_monthly_sales := sales
      projected_monthly_revenue := sales * 4500
      cost_per_lead := digital_spend / leads
      cost_per_acquisition := digital_spend / sales
      roi := (sales * 4500 - digital_spend) / digital_spend }

/-- One row of the seasonal forecast dataframe. -/
structure SeasonRow where
  month : String
  seasonal_index : ℚ
  demand_category : String
deriving DecidableEq, Repr

/-- The fixed month labels of `seasonal_demand_forecast`. -/
def seasonMonths : List String :=
  ["Jan", "Feb", "Mar", "Apr", "May", "Jun",
   "Jul", "Aug", "Sep", "Oct", "Nov", "Dec"]

/-- The fixed seasonal multipliers of `seasonal_demand_forecast`. -/
def seasonalIndex : List ℚ :=
  [4/10, 5/10, 9/10, 13/10, 16/10, 18/10, 17/10, 15/10, 12/10, 9/10, 5/10, 4/10]

/-- The fixed demand-category labels of `seasonal_demand_forecast`. -/
def demandCategory : List String :=
  ["Low", "Low", "Medium", "High", "Peak", "Peak",
   "Peak", "High", "High", "Medium", "Low", "Low"]

/-- `RoofMaxxPredictiveModel.seasonal_demand_forecast`: the fixed table when
no historical data is supplied, otherwise the caller's series unchanged. -/
def seasonal_demand_forecast (historical_data : Option (List SeasonRow)) : List SeasonRow :=
  match historical_data with
  | none =>
      (seasonMonths.zip (seasonalIndex.zip demandCategory)).map
        (fun t => ⟨t.1, t.2.1, t.2.2⟩)
  | some h => h

/-! ## Section 3: GeospatialAnalyzer -/

/-- The fixed ten-entry Washington-county coordinate table of
`create_market_heatmap`. -/
def waCoordinates : List (String × ℚ × ℚ) :=
  [("King", 475480/10000, -1219836/10000),
   ("Pierce", 470676/10000, -1221295/10000),
   ("Snohomish", 480420/10000, -1217170/10000),
   ("Spokane", 476588/10000, -1174260/10000),
   ("Clark", 457466/10000, -1225194/10000),
   ("Thurston", 469965/10000, -1228890/10000),
   ("Kitsap", 476477/10000, -1226413/10000),
   ("Yakima", 465890/10000, -1205435/10000),
   ("Whatcom", 488426/10000, -1221361/10000),
   ("Benton", 462632/10000, -1195419/10000)]

/-- Coordinate lookup: `location_name in wa_coordinates`. -/
def lookupCoord (n : String) : Option (ℚ × ℚ) :=
  (waCoordinates.find? (fun p => p.1 = n)).map (fun p => p.2)

/-- A row as seen by the heatmap loop: it may carry a `county` column (WA
dataframe) or a `province` column (Canada dataframe), and the metric value
used for the marker radius. -/
structure HeatRow where
  county : Option String
  province : Option String
  metricValue : ℚ
deriving DecidableEq, Repr

/-- `if 'county' in row: ... elif 'province' in row: ... else: continue`. -/
def rowName (r : HeatRow) : Option String :=
  match r.county with
  | some c => some c
  | none => r.province

/-- A circle marker placed on the folium map. -/
structure MapMarker where
  name : String
  location : ℚ × ℚ
  radius : ℚ
deriving DecidableEq, Repr

/-- The marker the heatmap loop produces from one row, if any: the row is
skipped when it names no region or its name has no coordinate entry. -/
def markerOfRow (r : HeatRow) : Option MapMarker :=
  match rowName r with
  | none => none
  | some n =>
      match lookupCoord n with
      | none => none
      | some c => some ⟨n, c, r.metricValue / 100⟩

/-- `GeospatialAnalyzer.create_market_heatmap`, reduced to the list of
markers it adds to the map. -/
def create_market_heatmap (rows : List HeatRow) : List MapMarker :=
  rows.filterMap markerOfRow

/-! ## Section 4: segmentation and CLV -/

/-- The return value of `calculate_customer_lifetime_value`. -/
structure CLVBreakdown where
  direct_revenue : ℚ
  referral_value : ℚ
  total_clv : ℚ
  timespan_years : ℚ
deriving DecidableEq, Repr

/-- `calculate_customer_lifetime_value`: pure arithmetic on the treatment
economics. -/
def calculate_customer_lifetime_value
    (avg_treatment_cost treatments referral_rate : ℚ) : CLVBreakdown :=
  let direct_revenue := avg_treatment_cost * treatments
  let referral_value := avg_treatment_cost * referral_rate
  { direct_revenue := direct_revenue
    referral_value := referral_value
    total_clv := direct_revenue + referral_value
    timespan_years := treatments * 5 }

/-! ## Dashboard (`streamlit_dashboard.py`) -/

/-- The sidebar control state of the dashboard session. -/
structure DashboardState where
  territory : String
  dateRangeStart : ℤ
  dateRangeEnd : ℤ
  monthlyMarketing : ℤ
deriving DecidableEq, Repr

/-- The four headline figures of the Executive Dashboard tab. -/
structure ExecMetrics where
  monthlyLeadsShown : String
  conversionRate : String
  revenueMtd : String
  pipelineValue : String
deriving DecidableEq, Repr

/-- Tab 1 of `streamlit_dashboard.py` renders four literal `st.metric`
values; no sidebar control value flows into them. -/
def executiveMetrics (_s : DashboardState) : ExecMetrics :=
  ⟨"187", "28.5%", "$241,500", "$1.2M"⟩

/-! ## Helper lemmas -/

/-- Every bracket row carries the treatment-window flag computed from its
own age-range label. -/
lemma mem_mkAgeTable_window (p a : List ℚ) (b : AgeBracket)
    (hb : b ∈ mkAgeTable p a) :
    b.in_treatment_window = inTreatmentWindow b.age_range := by
  unfold mkAgeTable at hb
  obtain ⟨t, _, rfl⟩ := List.mem_map.1 hb
  rfl

lemma getCol_none_of_not_hasCol (df : Df) (c : String) (h : hasCol df c = false) :
    getCol df c = none := by
  unfold getCol
  rw [List.find?_eq_none.2]
  · rfl
  · intro x hx
    have h' := List.any_eq_false.1 h x hx
    simpa using h'

lemma hasCol_of_getCol (df : Df) (c : String) (xs : List ℚ)
    (h : getCol df c = some xs) : hasCol df c = true := by
  by_contra hc
  rw [getCol_none_of_not_hasCol df c (by simpa using hc)] at h
  exact Option.noConfusion h

lemma getCol_append_ne (df : Df) (n : String) (xs : List ℚ) (c : String)
    (h : c ≠ n) : getCol (df ++ [(n, xs)]) c = getCol df c := by
  unfold getCol
  rw [List.find?_append]
  cases hf : df.find? (fun p => decide (p.1 = c)) with
  | some v => simp
  | none => simp [Ne.symm h]

lemma getCol_append_self (df : Df) (n : String) (xs : List ℚ)
    (h : hasCol df n = false) : getCol (df ++ [(n, xs)]) n = some xs := by
  unfold getCol
  rw [List.find?_append]
  have hn : df.find? (fun p => decide (p.1 = n)) = none := by
    have := getCol_none_of_not_hasCol df n h
    unfold getCol at this
    exact Option.map_eq_none'.1 this
  simp [hn]

lemma hasCol_append (df : Df) (n : String) (xs : List ℚ) (c : String) :
    hasCol (df ++ [(n, xs)]) c = (hasCol df c || decide (n = c)) := by
  simp [hasCol, List.any_append]

lemma addRatioCol_eq_append (df : Df) (a b nc : String) (xs ys : List ℚ)
    (ha : getCol df a = some xs) (hb : getCol df b = some ys) :
    addRatioCol df a b nc =
      df ++ [(nc, List.zipWith (fun x y => x / y) xs ys)] := by
  unfold addRatioCol
  rw [if_pos ⟨by simp [hasCol_of_getCol df a xs ha], by simp [hasCol_of_getCol df b ys hb]⟩]
  rw [ha, hb]

lemma addRatioCol_id_of_missing (df : Df) (a b nc : String)
    (h : hasCol df a = false ∨ hasCol df b = false) :
    addRatioCol df a b nc = df := by
  unfold addRatioCol
  rw [if_neg]
  rcases h with h | h <;> simp [h]

lemma getCol_addRatioCol_ne (df : Df) (a b nc c : String) (h : c ≠ nc) :
    getCol (addRatioCol df a b nc) c = getCol df c := by
  unfold addRatioCol
  split
  · split
    · exact getCol_append_ne df nc _ c h
    · rfl
  · rfl

lemma hasCol_addRatioCol_ne (df : Df) (a b nc c : String) (h : c ≠ nc) :
    hasCol (addRatioCol df a b nc) c = hasCol df c := by
  unfold addRatioCol
  split
  · split
    · rw [hasCol_append]
      simp [Ne.symm h]
    · rfl
  · rfl

lemma lookupCoord_isSome (n : String) :
    (lookupCoord n).isSome = true ↔ n ∈ waCoordinates.map Prod.fst := by
  simp [lookupCoord, List.find?_isSome, List.mem_map]

/-! ## Claims -/

/-- C2: `calculate_customer_lifetime_value` returns direct revenue `c × n`,
referral value `c × r`, total CLV `c × n + c × r` and timespan `n × 5`; at
`(4500, 3, 0.3)` this is direct 13500, referral 1350, total 14850,
timespan 15 years. -/
theorem clv_formula (c n r : ℚ) :
    calculate_customer_lifetime_value c n r =
      ⟨c * n, c * r, c * n + c * r, n * 5⟩ ∧
    calculate_customer_lifetime_value 4500 3 (3/10) =
      ⟨13500, 1350, 14850, 15⟩ := by
  refine ⟨rfl, ?_⟩
  norm_num [calculate_customer_lifetime_value]

/-- C3: on an unrecognized region the code raises the raw internal fault
`UnboundLocalError` (the local `df` is returned without ever being
assigned), not the explicit `InvalidInput` signal the spec requires. -/
theorem collect_demographic_data_unknown_region_raw_fault :
    collect_demographic_data "france" = .error (PyError.unboundLocalError "df") ∧
    (PyError.unboundLocalError "df").isInvalidInput = false :=
  ⟨rfl, rfl⟩

/-- C9: the four Executive Dashboard metrics are the same for any two
sidebar states, and equal the literals 187, 28.5%, $241,500, $1.2M. -/
theorem executive_metrics_static (s₁ s₂ : DashboardState) :
    executiveMetrics s₁ = executiveMetrics s₂ ∧
    executiveMetrics s₁ = ⟨"187", "28.5%", "$241,500", "$1.2M"⟩ :=
  ⟨rfl, rfl⟩

/-- C10: any region other than the exact string `washington` gets the
Canada seven-bracket table (percentages `[7,11,14,17,27,19,5]`, average
roof ages `[3,8,13,18,26,22,27]`) with no error, and in every returned
table `in_treatment_window` holds exactly for the `6-10 years` and
`11-15 years` brackets. -/
theorem collect_housing_age_data_nonwashington (region : String)
    (h : region ≠ "washington") :
    collect_housing_age_data region = collect_housing_age_data "canada" ∧
    (collect_housing_age_data region).map (fun b => b.percentage) =
      [7, 11, 14, 17, 27, 19, 5] ∧
    (collect_housing_age_data region).map (fun b => b.avg_roof_age) =
      [3, 8, 13, 18, 26, 22, 27] ∧
    (∀ reg : String, ∀ b ∈ collect_housing_age_data reg,
      b.in_treatment_window = true ↔
        b.age_range ∈ ["6-10 years", "11-15 years"]) := by
  have htbl : collect_housing_age_data region = collect_housing_age_data "canada" := by
    unfold collect_housing_age_data
    rw [if_neg h, if_neg (by simp)]
  refine ⟨htbl, ?_, ?_, ?_⟩
  · rw [htbl]; rfl
  · rw [htbl]; rfl
  · intro reg b hb
    have hw : b.in_treatment_window = inTreatmentWindow b.age_range := by
      unfold collect_housing_age_data at hb
      split at hb <;> exact mem_mkAgeTable_window _ _ b hb
    rw [hw]
    simp [inTreatmentWindow]

/-- C10 witness: `collect_housing_age_data` at the unrecognized region
`france` yields the Canada table. -/
theorem collect_housing_age_data_nonwashington_witness :
    collect_housing_age_data "france" = collect_housing_age_data "canada" ∧
    (collect_housing_age_data "france").map (fun b => b.percentage) =
      [7, 11, 14, 17, 27, 19, 5] := by
  have h := collect_housing_age_data_nonwashington "france" (by simp)
  exact ⟨h.1, h.2.1⟩

/-- C1 counterexample: King County's `est_asphalt_roofs` is exactly
`953923 × 0.61 × 0.70 = 407325.121`, which is not within 10 of the claim's
`≈ 407125.7` (it differs by 199.421). -/
theorem king_est_asphalt_counterexample :
    collect_demographic_data "washington" = .ok (waData.map waDerive) ∧
    ((waData.map waDerive).head?.map (fun r => r.est_asphalt_roofs)) =
      some (407325121/1000) ∧
    ((waData.map waDerive).head?.map (fun r => r.name)) = some "King" ∧
    ¬ |(407325121 : ℚ)/1000 - 4071257/10| ≤ 10 := by
  refine ⟨rfl, ?_, rfl, ?_⟩
  · norm_num [waData, waDerive]
  · rw [abs_of_nonneg (by norm_num)]
    norm_num

/-- C1 (amended): every row produced by `collect_demographic_data`
satisfies `est_asphalt_roofs = housing_units × homeownership_rate × 0.70`
(0.72 for Canada), `est_qualified_roofs = est_asphalt_roofs × 0.90` (0.85
for Canada), `market_potential_annual = est_qualified_roofs × 0.07` (0.065
for Canada); for King County `est_asphalt_roofs = 407325.121`. -/
theorem collect_demographic_data_derived_fields (region : String)
    (rows : List RegionRow) (h : collect_demographic_data region = .ok rows)
    (r : RegionRow) (hr : r ∈ rows) :
    (region = "washington" →
      r.est_asphalt_roofs = r.housing_units * r.homeownership_rate * (70/100) ∧
      r.est_qualified_roofs = r.est_asphalt_roofs * (90/100) ∧
      r.market_potential_annual = r.est_qualified_roofs * (7/100)) ∧
    (region = "canada" →
      r.est_asphalt_roofs = r.housing_units * r.homeownership_rate * (72/100) ∧
      r.est_qualified_roofs = r.est_asphalt_roofs * (85/100) ∧
      r.market_potential_annual = r.est_qualified_roofs * (65/1000)) ∧
    (region = "washington" → r.name = "King" →
      r.est_asphalt_roofs = 407325121/1000) := by
  unfold collect_demographic_data at h
  split_ifs at h with h1 h2
  · obtain rfl : rows = waData.map waDerive := by injection h with h; exact h.symm
    obtain ⟨b, hb, rfl⟩ := List.mem_map.1 hr
    refine ⟨fun _ => ⟨rfl, rfl, rfl⟩, fun hc => absurd (h1 ▸ hc) (by simp), ?_⟩
    intro _ hname
    fin_cases hb <;> (simp_all [waDerive]; try norm_num)
  · obtain rfl : rows = caData.map caDerive := by injection h with h; exact h.symm
    obtain ⟨b, hb, rfl⟩ := List.mem_map.1 hr
    exact ⟨fun hw => absurd hw h1, fun _ => ⟨rfl, rfl, rfl⟩,
      fun hw => absurd hw h1⟩

/-- C1 witness: the theorem applied to the concrete King County row of the
Washington dataframe. -/
theorem collect_demographic_data_derived_fields_witness :
    (waDerive ⟨"King", 2269675, 106326, 686400, 61/100, 953923⟩).est_asphalt_roofs =
      (953923 : ℚ) * (61/100) * (70/100) ∧
    (waDerive ⟨"King", 2269675, 106326, 686400, 61/100, 953923⟩).est_asphalt_roofs =
      407325121/1000 := by
  have h := collect_demographic_data_derived_fields "washington"
    (waData.map waDerive) rfl
    (waDerive ⟨"King", 2269675, 106326, 686400, 61/100, 953923⟩)
    (List.mem_map_of_mem waDerive (by simp [waData]))
  exact ⟨(h.1 rfl).1, h.2.2 rfl rfl⟩

/-- C6 counterexample: the twelve seasonal indices sum to 12.7, not 12 —
off by 0.7, far outside floating-point tolerance. -/
theorem seasonal_index_sum_counterexample :
    ((seasonal_demand_forecast none).map (fun r => r.seasonal_index)).sum = 127/10 ∧
    ¬ |((seasonal_demand_forecast none).map (fun r => r.seasonal_index)).sum - 12| ≤ 1/10 := by
  have hmap : (seasonal_demand_forecast none).map (fun r => r.seasonal_index) =
      seasonalIndex := rfl
  have hsum : ((seasonal_demand_forecast none).map (fun r => r.seasonal_index)).sum
      = 127/10 := by
    rw [hmap]; norm_num [seasonalIndex]
  refine ⟨hsum, ?_⟩
  rw [hsum, abs_of_nonneg (by norm_num)]
  norm_num

/-- C6 (amended): the twelve seasonal index values of
`seasonal_demand_forecast` (no historical data) sum to 12.7 — a monthly
average of about 1.058, not 1.0 — and the paired demand-category labels
equal exactly `[Low, Low, Medium, High, Peak, Peak, Peak, High, High,
Medium, Low, Low]` for January through December. -/
theorem seasonal_forecast_table :
    ((seasonal_demand_forecast none).map (fun r => r.seasonal_index)).sum = 127/10 ∧
    (seasonal_demand_forecast none).map (fun r => r.seasonal_index) =
      [4/10, 5/10, 9/10, 13/10, 16/10, 18/10, 17/10, 15/10, 12/10, 9/10, 5/10, 4/10] ∧
    (seasonal_demand_forecast none).map (fun r => r.demand_category) =
      ["Low", "Low", "Medium", "High", "Peak", "Peak",
       "Peak", "High", "High", "Medium", "Low", "Low"] ∧
    (seasonal_demand_forecast none).map (fun r => r.month) = seasonMonths := by
  refine ⟨?_, rfl, rfl, rfl⟩
  have hmap : (seasonal_demand_forecast none).map (fun r => r.seasonal_index) =
      seasonalIndex := rfl
  rw [hmap]; norm_num [seasonalIndex]

/-- C4: `forecast_lead_generation` signals the division-by-zero fault
exactly when digital spend, the monthly lead count, or the projected sales
count is zero; with all three nonzero it returns `cost_per_lead =
digital_spend / monthly_leads`, `cost_per_acquisition = digital_spend /
projected_sales` and `roi = (projected_sales × 4500 − digital_spend) /
digital_spend`. -/
theorem forecast_lead_generation_division (ds ss cp rc : ℚ) :
    (forecast_lead_generation ds ss cp rc = .error .zeroDivisionError ↔
      ds = 0 ∨ monthlyLeads ds ss cp rc = 0 ∨ projectedSales ds ss cp rc = 0) ∧
    (ds ≠ 0 → monthlyLeads ds ss cp rc ≠ 0 → projectedSales ds ss cp rc ≠ 0 →
      forecast_lead_generation ds ss cp rc = .ok
        { total_leads := monthlyLeads ds ss cp rc
          hot_leads := monthlyLeads ds ss cp rc * (25/100)
          warm_leads := monthlyLeads ds ss cp rc * (45/100)
          cold_leads := monthlyLeads ds ss cp rc * (30/100)
          projected_monthly_sales := projectedSales ds ss cp rc
          projected_monthly_revenue := projectedSales ds ss cp rc * 4500
          cost_per_lead := ds / monthlyLeads ds ss cp rc
          cost_per_acquisition := ds / projectedSales ds ss cp rc
          roi := (projectedSales ds ss cp rc * 4500 - ds) / ds }) := by
  constructor
  · by_cases hl : monthlyLeads ds ss cp rc = 0
    · have he : forecast_lead_generation ds ss cp rc = .error .zeroDivisionError := by
        unfold forecast_lead_generation; rw [if_pos hl]
      simp [he, hl]
    · by_cases hs : projectedSales ds ss cp rc = 0
      · have he : forecast_lead_generation ds ss cp rc = .error .zeroDivisionError := by
          unfold forecast_lead_generation; rw [if_neg hl, if_pos hs]
        simp [he, hs]
      · by_cases hd : ds = 0
        · have he : forecast_lead_generation ds ss cp rc = .error .zeroDivisionError := by
            unfold forecast_lead_generation; rw [if_neg hl, if_neg hs, if_pos hd]
          rw [he]; simp [hd]
        · have he : forecast_lead_generation ds ss cp rc ≠ .error .zeroDivisionError := by
            unfold forecast_lead_generation; rw [if_neg hl, if_neg hs, if_neg hd]
            simp
          simp [he, hl, hs, hd]
  · intro hds hl hs
    unfold forecast_lead_generation
    rw [if_neg hl, if_neg hs, if_neg hds]

/-- C4 witness: the theorem at digital spend 2000 with all other inputs 0,
where monthly leads are 30 and projected sales 8.325. -/
theorem forecast_lead_generation_division_witness :
    forecast_lead_generation 2000 0 0 0 =
      .ok ⟨30, 15/2, 27/2, 9, 333/40, 74925/2, 200/3, 80000/333, 2837/160⟩ := by
  have h := (forecast_lead_generation_division 2000 0 0 0).2
    (by norm_num) (by norm_num [monthlyLeads])
    (by norm_num [projectedSales, monthlyLeads])
  rw [h]
  norm_num [monthlyLeads, projectedSales]

/-- C5: the monthly lead count is monotonically non-decreasing in each of
digital spend, SEO score, content pieces and review count individually,
for non-negative inputs. -/
theorem monthlyLeads_monotone (ds ds' ss ss' cp cp' rc rc' : ℚ)
    (hds : 0 ≤ ds) (hss : 0 ≤ ss) (hcp : 0 ≤ cp) (hrc : 0 ≤ rc) :
    (ds ≤ ds' → monthlyLeads ds ss cp rc ≤ monthlyLeads ds' ss cp rc) ∧
    (ss ≤ ss' → monthlyLeads ds ss cp rc ≤ monthlyLeads ds ss' cp rc) ∧
    (cp ≤ cp' → monthlyLeads ds ss cp rc ≤ monthlyLeads ds ss cp' rc) ∧
    (rc ≤ rc' → monthlyLeads ds ss cp rc ≤ monthlyLeads ds ss cp rc') := by
  have hA : (0:ℚ) ≤ 1 + ss / 100 * 2 := by
    have := mul_nonneg (div_nonneg hss (by norm_num : (0:ℚ) ≤ 100)) (by norm_num : (0:ℚ) ≤ 2)
    linarith
  have hB : (0:ℚ) ≤ 1 + cp / 50 * (15/10) := by
    have := mul_nonneg (div_nonneg hcp (by norm_num : (0:ℚ) ≤ 50)) (by norm_num : (0:ℚ) ≤ 15/10)
    linarith
  have hC : (0:ℚ) ≤ 1 + rc / 100 * (5/10) := by
    have := mul_nonneg (div_nonneg hrc (by norm_num : (0:ℚ) ≤ 100)) (by norm_num : (0:ℚ) ≤ 5/10)
    linarith
  have hX : (0:ℚ) ≤ ds / 1000 * 15 :=
    mul_nonneg (div_nonneg hds (by norm_num)) (by norm_num)
  unfold monthlyLeads
  refine ⟨fun hle => ?_, fun hle => ?_, fun hle => ?_, fun hle => ?_⟩
  · have hX' : ds / 1000 * 15 ≤ ds' / 1000 * 15 := by
      have : ds / 1000 ≤ ds' / 1000 := by linarith
      linarith
    exact mul_le_mul_of_nonneg_right
      (mul_le_mul_of_nonneg_right (mul_le_mul_of_nonneg_right hX' hA) hB) hC
  · have hA' : 1 + ss / 100 * 2 ≤ 1 + ss' / 100 * 2 := by
      have : ss / 100 ≤ ss' / 100 := by linarith
      linarith
    exact mul_le_mul_of_nonneg_right
      (mul_le_mul_of_nonneg_right (mul_le_mul_of_nonneg_left hA' hX) hB) hC
  · have hB' : 1 + cp / 50 * (15/10) ≤ 1 + cp' / 50 * (15/10) := by
      have : cp / 50 ≤ cp' / 50 := by linarith
      linarith
    exact mul_le_mul_of_nonneg_right
      (mul_le_mul_of_nonneg_left hB' (mul_nonneg hX hA)) hC
  · have hC' : 1 + rc / 100 * (5/10) ≤ 1 + rc' / 100 * (5/10) := by
      have : rc / 100 ≤ rc' / 100 := by linarith
      linarith
    exact mul_le_mul_of_nonneg_left hC' (mul_nonneg (mul_nonneg hX hA) hB)

/-- C5 witness: the theorem at concrete inputs — raising spend from 1000
to 2000, and SEO score from 0 to 100, does not decrease the forecast. -/
theorem monthlyLeads_monotone_witness :
    monthlyLeads 1000 0 0 0 ≤ monthlyLeads 2000 0 0 0 ∧
    monthlyLeads 1000 0 0 0 ≤ monthlyLeads 1000 100 0 0 := by
  have h := monthlyLeads_monotone 1000 2000 0 100 0 0 0 0
    (by norm_num) (by norm_num) (by norm_num) (by norm_num)
  exact ⟨h.1 (by norm_num), h.2.1 (by norm_num)⟩

/-- C7: `prepare_features` never fails; when `median_home_value` is absent
it does not add the income-to-home-value ratio column, and when
`median_income` and `median_home_value` are both present it adds
`income_home_ratio` holding the rowwise quotient; the analogous behavior
holds for `population`/`housing_units` and `population_density`. -/
theorem prepare_features_missing_columns (df : Df) :
    (hasCol df "median_home_value" = false →
      getCol (prepare_features df) "income_home_ratio" =
        getCol df "income_home_ratio") ∧
    (∀ xs ys, getCol df "median_income" = some xs →
      getCol df "median_home_value" = some ys →
      hasCol df "income_home_ratio" = false →
      getCol (prepare_features df) "income_home_ratio" =
        some (List.zipWith (fun x y => x / y) xs ys)) ∧
    (hasCol df "housing_units" = false →
      getCol (prepare_features df) "population_density" =
        getCol df "population_density") ∧
    (∀ xs ys, getCol df "population" = some xs →
      getCol df "housing_units" = some ys →
      hasCol df "population_density" = false →
      getCol (prepare_features df) "population_density" =
        some (List.zipWith (fun x y => x / y) xs ys)) := by
  refine ⟨?_, ?_, ?_, ?_⟩
  · intro h
    have e1 : addRatioCol df "median_income" "median_home_value" "income_home_ratio" = df :=
      addRatioCol_id_of_missing df _ _ _ (Or.inr h)
    unfold prepare_features
    rw [e1]
    exact getCol_addRatioCol_ne df _ _ _ _ (by simp)
  · intro xs ys hxs hys hmiss
    have e1 : addRatioCol df "median_income" "median_home_value" "income_home_ratio" =
        df ++ [("income_home_ratio", List.zipWith (fun x y => x / y) xs ys)] :=
      addRatioCol_eq_append df _ _ _ xs ys hxs hys
    unfold prepare_features
    rw [e1, getCol_addRatioCol_ne _ _ _ _ _ (by simp)]
    exact getCol_append_self df _ _ hmiss
  · intro h
    have h1 : hasCol (addRatioCol df "median_income" "median_home_value" "income_home_ratio")
        "housing_units" = false := by
      rw [hasCol_addRatioCol_ne df _ _ _ _ (by simp)]
      exact h
    unfold prepare_features
    rw [addRatioCol_id_of_missing _ _ _ _ (Or.inr h1)]
    exact getCol_addRatioCol_ne df _ _ _ _ (by simp)
  · intro xs ys hxs hys hmiss
    have hxs1 : getCol (addRatioCol df "median_income" "median_home_value" "income_home_ratio")
        "population" = some xs := by
      rw [getCol_addRatioCol_ne df _ _ _ _ (by simp)]; exact hxs
    have hys1 : getCol (addRatioCol df "median_income" "median_home_value" "income_home_ratio")
        "housing_units" = some ys := by
      rw [getCol_addRatioCol_ne df _ _ _ _ (by simp)]; exact hys
    have hmiss1 : hasCol (addRatioCol df "median_income" "median_home_value" "income_home_ratio")
        "population_density" = false := by
      rw [hasCol_addRatioCol_ne df _ _ _ _ (by simp)]; exact hmiss
    unfold prepare_features
    rw [addRatioCol_eq_append _ _ _ _ xs ys hxs1 hys1]
    exact getCol_append_self _ _ _ hmiss1

/-- C7 witness: with both source columns present the ratio column appears
with the rowwise quotient; with `median_home_value` absent no ratio column
is added and no error occurs. -/
theorem prepare_features_missing_columns_witness :
    getCol (prepare_features [("median_income", [100]), ("median_home_value", [400])])
      "income_home_ratio" = some [1/4] ∧
    getCol (prepare_features [("median_income", [100])]) "income_home_ratio" = none := by
  constructor
  · have h := (prepare_features_missing_columns
      [("median_income", [100]), ("median_home_value", [400])]).2.1
      [100] [400] rfl rfl rfl
    rw [h]
    norm_num
  · have h := (prepare_features_missing_columns [("median_income", [100])]).1 rfl
    rw [h]
    rfl

/-- C8: the heatmap places a marker for a row exactly when the row's
region name (its `county`, else `province`, field) is one of the ten
Washington county names of the fixed coordinate table; every other name —
including all six Canadian province names — is silently skipped and the
render never fails. -/
theorem create_market_heatmap_markers (rows : List HeatRow) :
    create_market_heatmap rows = rows.filterMap markerOfRow ∧
    (∀ r : HeatRow, (markerOfRow r).isSome = true ↔
      ∃ n, rowName r = some n ∧ n ∈ waCoordinates.map Prod.fst) ∧
    waCoordinates.map Prod.fst =
      ["King", "Pierce", "Snohomish", "Spokane", "Clark",
       "Thurston", "Kitsap", "Yakima", "Whatcom", "Benton"] ∧
    (caData.map (fun r => r.name)).all (fun n => (lookupCoord n).isNone) = true := by
  refine ⟨rfl, ?_, rfl, rfl⟩
  intro r
  cases hn : rowName r with
  | none => simp [markerOfRow, hn]
  | some n =>
    cases hc : lookupCoord n with
    | none =>
      have hmem : ¬ n ∈ waCoordinates.map Prod.fst := by
        rw [← lookupCoord_isSome]
        simp [hc]
      simp only [markerOfRow, hn, hc, Option.isSome_none]
      constructor
      · intro h
        exact absurd h (by simp)
      · rintro ⟨m, hm, hmm⟩
        obtain rfl : m = n := by injection hm with hm; exact hm.symm
        exact absurd hmm hmem
    | some c =>
      have hmem : n ∈ waCoordinates.map Prod.fst :=
        (lookupCoord_isSome n).1 (by simp [hc])
      simp only [markerOfRow, hn, hc, Option.isSome_some, true_iff]
      exact ⟨n, rfl, hmem⟩

end RoofMaxx
